import Mathlib

/-
Shallow embedding of src/src/state.rs from ahsparrow/asselect3:
the settings record, the action vocabulary and the reducer of the
airspace-selection tool, together with proofs of the specified
properties of the reducer.

Rust HashSet fields are modelled as Finset String (the spec and the
claims only speak of set contents, which HashSet and Finset share).
The Rust reducer calls unwrap on the numeric parse of max_level and
can therefore panic; the embedding makes the possible panic explicit
by returning Option Settings, where none marks exactly the panicking
executions and some marks the value the Rust code returns.
-/

namespace ASelect

/-- Airspace types, from enum AirType in state.rs. -/
inductive AirType where
  | ClassA
  | ClassB
  | ClassC
  | ClassD
  | ClassE
  | ClassF
  | ClassG
  | Danger
  | Cta
  | Ctr
  | Gliding
  | Matz
  | Other
  | Prohibited
  | Restricted
  | Rmz
  | Tmz
  deriving DecidableEq, Repr

/-- Output format, from enum Format in state.rs. -/
inductive Format where
  | OpenAir
  | RatOnly
  | Competition
  deriving DecidableEq, Repr

/-- Altitude layer overlay, from enum Overlay in state.rs. -/
inductive Overlay where
  | FL195
  | FL105
  | AtzDz
  deriving DecidableEq, Repr

/-- The settings record, from struct Settings in state.rs.  The u16
field max_level is a Nat kept below 2^16 by the parser; the three
HashSet String fields are Finset String. -/
structure Settings where
  atz : AirType
  ils : Option AirType
  unlicensed : Option AirType
  microlight : Option AirType
  gliding : Option AirType
  home : Option String
  hirta_gvs : Option AirType
  obstacle : Option AirType
  max_level : Nat
  radio : Bool
  format : Format
  overlay : Option Overlay
  loa : Finset String
  rat : Finset String
  wave : Finset String
  deriving DecidableEq

/-- The default settings value, from impl Default for Settings. -/
def defaultSettings : Settings where
  atz := AirType.Ctr
  ils := none
  unlicensed := none
  microlight := none
  gliding := none
  home := none
  hirta_gvs := none
  obstacle := none
  max_level := 660
  radio := false
  format := Format.OpenAir
  overlay := none
  loa := ∅
  rat := ∅
  wave := ∅

/-- State actions, from enum Action in state.rs. -/
inductive Action where
  | Set (name : String) (value : String)
  | SetLoa (name : String) (checked : Bool)
  | SetRat (name : String) (checked : Bool)
  | SetWave (name : String) (checked : Bool)
  | ClearLoa
  | ClearRat
  | ClearWave

/-- Default mapping value to airspace type, from fn get_airtype in
state.rs.  The Rust match on a string slice is a sequence of equality
tests, rendered here as an if chain. -/
def get_airtype (value : String) : Option AirType :=
  if value = "classd" then some AirType.ClassD
  else if value = "classf" then some AirType.ClassF
  else if value = "classg" then some AirType.ClassG
  else if value = "ctr" then some AirType.Ctr
  else if value = "danger" then some AirType.Danger
  else if value = "restricted" then some AirType.Restricted
  else if value = "gsec" then some AirType.Gliding
  else none

/-- Model of the Rust str::parse::<u16> call in the max_level arm:
an optional leading plus sign followed by at least one ASCII digit,
with the decimal value at most 65535; every other string fails. -/
def parseU16 (s : String) : Option Nat :=
  let cs := if s.data.head? = some '+' then s.data.tail else s.data
  if cs.isEmpty then none
  else if cs.all Char.isDigit then
    let n := cs.foldl (fun acc c => acc * 10 + (c.toNat - 48)) 0
    if n ≤ 65535 then some n else none
  else none

/-- The reducer, from impl Reducible for State in state.rs (the State
wrapper holds exactly one Settings, so the function is stated on
Settings).  The string match on the Set key is the same first-match
sequence of equality tests as the Rust match.  The max_level arm in
the Rust source unwraps the parse result and panics when the parse
fails; that panic is the none result here, every other arm is total. -/
def reduce (s : Settings) (a : Action) : Option Settings :=
  match a with
  | Action.Set name value =>
    if name = "atz" then some { s with atz := (get_airtype value).getD AirType.Ctr }
    else if name = "ils" then some { s with ils := get_airtype value }
    else if name = "unlicensed" then some { s with unlicensed := get_airtype value }
    else if name = "microlight" then some { s with microlight := get_airtype value }
    else if name = "gliding" then some { s with gliding := get_airtype value }
    else if name = "hirta_gvs" then some { s with hirta_gvs := get_airtype value }
    else if name = "obstacle" then some { s with obstacle := get_airtype value }
    else if name = "max_level" then
      (parseU16 value).map (fun n => { s with max_level := n })
    else if name = "radio" then some { s with radio := value == "yes" }
    else if name = "home" then
      some { s with home := if value = "no" then none else some value }
    else if name = "overlay" then
      some { s with overlay :=
        if value = "fl195" then some Overlay.FL195
        else if value = "fl105" then some Overlay.FL105
        else if value = "atzdz" then some Overlay.AtzDz
        else none }
    else if name = "format" then
      some { s with format :=
        if value = "ratonly" then Format.RatOnly
        else if value = "competition" then Format.Competition
        else Format.OpenAir }
    else some s
  | Action.SetLoa name checked =>
    some (if checked then { s with loa := insert name s.loa }
          else { s with loa := s.loa.erase name })
  | Action.SetRat name checked =>
    some (if checked then { s with rat := insert name s.rat }
          else { s with rat := s.rat.erase name })
  | Action.SetWave name checked =>
    some (if checked then { s with wave := insert name s.wave }
          else { s with wave := s.wave.erase name })
  | Action.ClearLoa => some { s with loa := ∅ }
  | Action.ClearRat => some { s with rat := ∅ }
  | Action.ClearWave => some { s with wave := ∅ }

/-- Folding a list of actions through the reducer, propagating the
possible panic of the max_level arm. -/
def applyActions (s : Settings) (l : List Action) : Option Settings :=
  l.foldlM reduce s

/-- Modelled from the spec: the external representation of Settings is
produced by the serde derive in state.rs, whose generated encoder and
decoder are not part of this repository.  Per the serialization
contract of the spec it is a field-for-field record in which the three
set fields marked with the serde default attribute may be absent. -/
structure SettingsRepr where
  atz : AirType
  ils : Option AirType
  unlicensed : Option AirType
  microlight : Option AirType
  gliding : Option AirType
  home : Option String
  hirta_gvs : Option AirType
  obstacle : Option AirType
  max_level : Nat
  radio : Bool
  format : Format
  overlay : Option Overlay
  loa : Option (Finset String)
  rat : Option (Finset String)
  wave : Option (Finset String)

/-- Modelled from the spec: serializing a Settings value records every
field; the three set fields are always present in a freshly produced
representation. -/
def encodeSettings (s : Settings) : SettingsRepr where
  atz := s.atz
  ils := s.ils
  unlicensed := s.unlicensed
  microlight := s.microlight
  gliding := s.gliding
  home := s.home
  hirta_gvs := s.hirta_gvs
  obstacle := s.obstacle
  max_level := s.max_level
  radio := s.radio
  format := s.format
  overlay := s.overlay
  loa := some s.loa
  rat := some s.rat
  wave := some s.wave

/-- Modelled from the spec: deserializing restores every field, and a
set field absent from the representation defaults to the empty set,
per the serde default attribute on loa, rat and wave in state.rs. -/
def decodeSettings (r : SettingsRepr) : Settings where
  atz := r.atz
  ils := r.ils
  unlicensed := r.unlicensed
  microlight := r.microlight
  gliding := r.gliding
  home := r.home
  hirta_gvs := r.hirta_gvs
  obstacle := r.obstacle
  max_level := r.max_level
  radio := r.radio
  format := r.format
  overlay := r.overlay
  loa := r.loa.getD ∅
  rat := r.rat.getD ∅
  wave := r.wave.getD ∅

/-- The seven airspace types reachable through get_airtype. -/
def goodAirtype (t : AirType) : Prop :=
  t = AirType.ClassD ∨ t = AirType.ClassF ∨ t = AirType.ClassG ∨
  t = AirType.Ctr ∨ t = AirType.Danger ∨ t = AirType.Restricted ∨
  t = AirType.Gliding

/-- An optional airspace field is good when unset or set to one of the
seven reachable types. -/
def goodOption : Option AirType → Prop
  | none => True
  | some t => goodAirtype t

/-- Invariant on the airspace fields of a settings value: the
mandatory atz field holds one of the seven types get_airtype can
produce, and every optional remap field is unset or holds one of
them. -/
def SettingsInv (s : Settings) : Prop :=
  goodAirtype s.atz ∧ goodOption s.ils ∧ goodOption s.unlicensed ∧
  goodOption s.microlight ∧ goodOption s.gliding ∧
  goodOption s.hirta_gvs ∧ goodOption s.obstacle

/-- The number of fields of Settings at which two settings values
differ. -/
def diffCount (s t : Settings) : Nat :=
  (if s.atz = t.atz then 0 else 1) +
  (if s.ils = t.ils then 0 else 1) +
  (if s.unlicensed = t.unlicensed then 0 else 1) +
  (if s.microlight = t.microlight then 0 else 1) +
  (if s.gliding = t.gliding then 0 else 1) +
  (if s.home = t.home then 0 else 1) +
  (if s.hirta_gvs = t.hirta_gvs then 0 else 1) +
  (if s.obstacle = t.obstacle then 0 else 1) +
  (if s.max_level = t.max_level then 0 else 1) +
  (if s.radio = t.radio then 0 else 1) +
  (if s.format = t.format then 0 else 1) +
  (if s.overlay = t.overlay then 0 else 1) +
  (if s.loa = t.loa then 0 else 1) +
  (if s.rat = t.rat then 0 else 1) +
  (if s.wave = t.wave then 0 else 1)

/-- Every airspace type get_airtype produces is one of the seven
reachable ones. -/
lemma goodOption_get_airtype (v : String) : goodOption (get_airtype v) := by
  unfold get_airtype
  split_ifs <;> simp [goodOption, goodAirtype]

/-- The Ctr fallback of the atz arm keeps the result among the seven
reachable airspace types. -/
lemma get_airtype_getD_good (v : String) :
    goodAirtype ((get_airtype v).getD AirType.Ctr) := by
  have h := goodOption_get_airtype v
  cases hv : get_airtype v with
  | none => simp [goodAirtype]
  | some t =>
    rw [hv] at h
    simpa [goodOption] using h

/-- Claim C1: the reducer is claimed total, completing for every string
given as the value of a max_level update; in the source the max_level
arm unwraps the numeric parse and panics on a non-numeric value, shown
here by the reducer producing no settings value on the empty string. -/
theorem reduce_max_level_panics :
    reduce defaultSettings (Action.Set "max_level" "") = none := by decide

/-- Claim C2: a non-numeric max_level value is claimed to yield an
InvalidNumericInput error while keeping the old value; the source has
no such error path, it panics, shown here by the reducer producing
neither an error value nor a settings value on a malformed number. -/
theorem reduce_max_level_no_error_path :
    reduce defaultSettings (Action.Set "max_level" "12a") = none := by decide

/-- Claim C4: get_airtype maps exactly the seven tokens classd, classf,
classg, ctr, danger, restricted and gsec to their airspace types and
every other string to none. -/
theorem get_airtype_classification :
    get_airtype "classd" = some AirType.ClassD ∧
    get_airtype "classf" = some AirType.ClassF ∧
    get_airtype "classg" = some AirType.ClassG ∧
    get_airtype "ctr" = some AirType.Ctr ∧
    get_airtype "danger" = some AirType.Danger ∧
    get_airtype "restricted" = some AirType.Restricted ∧
    get_airtype "gsec" = some AirType.Gliding ∧
    ∀ v : String, v ≠ "classd" → v ≠ "classf" → v ≠ "classg" →
      v ≠ "ctr" → v ≠ "danger" → v ≠ "restricted" → v ≠ "gsec" →
      get_airtype v = none := by
  refine ⟨by decide, by decide, by decide, by decide, by decide, by decide,
    by decide, ?_⟩
  intro v h1 h2 h3 h4 h5 h6 h7
  simp [get_airtype, h1, h2, h3, h4, h5, h6, h7]

/-- Witness for claim C4 at the concrete unrecognised token bogus. -/
theorem get_airtype_classification_witness : get_airtype "bogus" = none :=
  get_airtype_classification.2.2.2.2.2.2.2 "bogus" (by decide) (by decide)
    (by decide) (by decide) (by decide) (by decide) (by decide)

/-- Claim C5: an atz update sets atz to the classification of the value
when the classifier recognises it and to Ctr otherwise, for every
starting settings value, and the reduction always completes with atz
set. -/
theorem reduce_atz_total_classification :
    (∀ (s : Settings) (v : String) (t : AirType), get_airtype v = some t →
      (reduce s (Action.Set "atz" v)).map Settings.atz = some t) ∧
    (∀ (s : Settings) (v : String), get_airtype v = none →
      (reduce s (Action.Set "atz" v)).map Settings.atz = some AirType.Ctr) := by
  constructor
  · intro s v t hv
    simp [reduce, hv]
  · intro s v hv
    simp [reduce, hv]

/-- Witness for claim C5 at the concrete values danger and bogus. -/
theorem reduce_atz_total_classification_witness :
    (reduce defaultSettings (Action.Set "atz" "danger")).map Settings.atz =
      some AirType.Danger ∧
    (reduce defaultSettings (Action.Set "atz" "bogus")).map Settings.atz =
      some AirType.Ctr :=
  ⟨reduce_atz_total_classification.1 defaultSettings "danger" AirType.Danger
      (by decide),
    reduce_atz_total_classification.2 defaultSettings "bogus" (by decide)⟩

/-- Claim C3 counterexample: when the toggled name is already in loa,
checking and unchecking it does not restore the original settings: from
a state whose loa is the singleton A, the two toggles end with an empty
loa. -/
theorem setLoa_toggle_inverse_counterexample :
    ¬ ((reduce { defaultSettings with loa := {"A"} } (Action.SetLoa "A" true)).bind
        (fun t => reduce t (Action.SetLoa "A" false)) =
      some { defaultSettings with loa := {"A"} }) := by decide

/-- Claim C3 as amended: when the toggled name is not already in loa,
checking then unchecking it restores the settings exactly, every other
field included. -/
theorem setLoa_toggle_inverse_of_not_mem (s : Settings) (n : String)
    (h : n ∉ s.loa) :
    (reduce s (Action.SetLoa n true)).bind
      (fun t => reduce t (Action.SetLoa n false)) = some s := by
  simp [reduce, Finset.erase_insert h]

/-- Witness for the amended claim C3 at the default settings and the
name A. -/
theorem setLoa_toggle_inverse_witness :
    "A" ∉ defaultSettings.loa ∧
    (reduce defaultSettings (Action.SetLoa "A" true)).bind
      (fun t => reduce t (Action.SetLoa "A" false)) = some defaultSettings :=
  ⟨by decide, setLoa_toggle_inverse_of_not_mem defaultSettings "A" (by decide)⟩

/-- Applying a list of loa toggles through the reducer never fails. -/
lemma setLoa_actions_total (l : List (String × Bool)) :
    ∀ s : Settings, ∃ t,
      applyActions s (l.map (fun p => Action.SetLoa p.1 p.2)) = some t := by
  induction l with
  | nil => exact fun s => ⟨s, rfl⟩
  | cons p l ih =>
    intro s
    have hstep : applyActions s ((p :: l).map (fun q => Action.SetLoa q.1 q.2)) =
        applyActions
          (if p.2 then { s with loa := insert p.1 s.loa }
           else { s with loa := s.loa.erase p.1 })
          (l.map (fun q => Action.SetLoa q.1 q.2)) := rfl
    rw [hstep]
    exact ih _

/-- Claim C6: each clear action replaces its target set with the empty
set unconditionally from any state, and after any finite sequence of
loa toggles a clear of loa yields the empty set regardless of
history. -/
theorem clear_actions_empty_sets :
    (∀ s : Settings, reduce s Action.ClearLoa = some { s with loa := ∅ }) ∧
    (∀ s : Settings, reduce s Action.ClearRat = some { s with rat := ∅ }) ∧
    (∀ s : Settings, reduce s Action.ClearWave = some { s with wave := ∅ }) ∧
    (∀ (s : Settings) (l : List (String × Bool)),
      ((applyActions s (l.map (fun p => Action.SetLoa p.1 p.2))).bind
        (fun t => reduce t Action.ClearLoa)).map Settings.loa = some ∅) := by
  refine ⟨fun s => rfl, fun s => rfl, fun s => rfl, ?_⟩
  intro s l
  obtain ⟨t, ht⟩ := setLoa_actions_total l s
  rw [ht]
  simp [reduce]

/-- Claim C8: each of the three set toggles is idempotent, both when
checking and when unchecking a name. -/
theorem set_toggle_idempotent (s : Settings) (n : String) (c : Bool) :
    ((reduce s (Action.SetLoa n c)).bind
      (fun t => reduce t (Action.SetLoa n c)) = reduce s (Action.SetLoa n c)) ∧
    ((reduce s (Action.SetRat n c)).bind
      (fun t => reduce t (Action.SetRat n c)) = reduce s (Action.SetRat n c)) ∧
    ((reduce s (Action.SetWave n c)).bind
      (fun t => reduce t (Action.SetWave n c)) = reduce s (Action.SetWave n c)) := by
  cases c <;>
    refine ⟨?_, ?_, ?_⟩ <;>
      simp [reduce, Finset.insert_idem, Finset.erase_idem]

/-- Claim C7: decoding the encoding of any settings value restores it
exactly, the three set fields included, and decoding a representation
from which the three set fields are absent yields empty sets. -/
theorem settings_roundtrip :
    (∀ s : Settings, decodeSettings (encodeSettings s) = s) ∧
    (∀ r : SettingsRepr,
      (decodeSettings { r with loa := none, rat := none, wave := none }).loa = ∅ ∧
      (decodeSettings { r with loa := none, rat := none, wave := none }).rat = ∅ ∧
      (decodeSettings { r with loa := none, rat := none, wave := none }).wave = ∅) :=
  ⟨fun _ => rfl, fun _ => ⟨rfl, rfl, rfl⟩⟩

/-- A completed reduction of a generic keyed update leaves the settings
in one of thirteen shapes: one per recognised key, with the unknown-key
no-op last. -/
lemma reduce_set_cases (s : Settings) (name value : String) (t : Settings)
    (h : reduce s (Action.Set name value) = some t) :
    t = { s with atz := (get_airtype value).getD AirType.Ctr } ∨
    t = { s with ils := get_airtype value } ∨
    t = { s with unlicensed := get_airtype value } ∨
    t = { s with microlight := get_airtype value } ∨
    t = { s with gliding := get_airtype value } ∨
    t = { s with hirta_gvs := get_airtype value } ∨
    t = { s with obstacle := get_airtype value } ∨
    (∃ n, t = { s with max_level := n }) ∨
    t = { s with radio := value == "yes" } ∨
    (∃ w, t = { s with home := w }) ∨
    (∃ o, t = { s with overlay := o }) ∨
    (∃ f, t = { s with format := f }) ∨
    t = s := by
  simp only [reduce] at h
  by_cases e1 : name = "atz"
  · rw [if_pos e1] at h
    exact Or.inl (Option.some.inj h).symm
  rw [if_neg e1] at h
  by_cases e2 : name = "ils"
  · rw [if_pos e2] at h
    exact Or.inr (Or.inl (Option.some.inj h).symm)
  rw [if_neg e2] at h
  by_cases e3 : name = "unlicensed"
  · rw [if_pos e3] at h
    exact Or.inr (Or.inr (Or.inl (Option.some.inj h).symm))
  rw [if_neg e3] at h
  by_cases e4 : name = "microlight"
  · rw [if_pos e4] at h
    exact Or.inr (Or.inr (Or.inr (Or.inl (Option.some.inj h).symm)))
  rw [if_neg e4] at h
  by_cases e5 : name = "gliding"
  · rw [if_pos e5] at h
    exact Or.inr (Or.inr (Or.inr (Or.inr (Or.inl (Option.some.inj h).symm))))
  rw [if_neg e5] at h
  by_cases e6 : name = "hirta_gvs"
  · rw [if_pos e6] at h
    exact Or.inr (Or.inr (Or.inr (Or.inr (Or.inr
      (Or.inl (Option.some.inj h).symm)))))
  rw [if_neg e6] at h
  by_cases e7 : name = "obstacle"
  · rw [if_pos e7] at h
    exact Or.inr (Or.inr (Or.inr (Or.inr (Or.inr (Or.inr
      (Or.inl (Option.some.inj h).symm))))))
  rw [if_neg e7] at h
  by_cases e8 : name = "max_level"
  · rw [if_pos e8] at h
    obtain ⟨n, _, ht⟩ := Option.map_eq_some'.mp h
    exact Or.inr (Or.inr (Or.inr (Or.inr (Or.inr (Or.inr (Or.inr
      (Or.inl ⟨n, ht.symm⟩)))))))
  rw [if_neg e8] at h
  by_cases e9 : name = "radio"
  · rw [if_pos e9] at h
    exact Or.inr (Or.inr (Or.inr (Or.inr (Or.inr (Or.inr (Or.inr (Or.inr
      (Or.inl (Option.some.inj h).symm))))))))
  rw [if_neg e9] at h
  by_cases e10 : name = "home"
  · rw [if_pos e10] at h
    exact Or.inr (Or.inr (Or.inr (Or.inr (Or.inr (Or.inr (Or.inr (Or.inr
      (Or.inr (Or.inl ⟨_, (Option.some.inj h).symm⟩)))))))))
  rw [if_neg e10] at h
  by_cases e11 : name = "overlay"
  · rw [if_pos e11] at h
    exact Or.inr (Or.inr (Or.inr (Or.inr (Or.inr (Or.inr (Or.inr (Or.inr
      (Or.inr (Or.inr (Or.inl ⟨_, (Option.some.inj h).symm⟩))))))))))
  rw [if_neg e11] at h
  by_cases e12 : name = "format"
  · rw [if_pos e12] at h
    exact Or.inr (Or.inr (Or.inr (Or.inr (Or.inr (Or.inr (Or.inr (Or.inr
      (Or.inr (Or.inr (Or.inr (Or.inl ⟨_, (Option.some.inj h).symm⟩)))))))))))
  rw [if_neg e12] at h
  exact Or.inr (Or.inr (Or.inr (Or.inr (Or.inr (Or.inr (Or.inr (Or.inr
    (Or.inr (Or.inr (Or.inr (Or.inr (Option.some.inj h).symm)))))))))))

/-- A single reduction step keeps the airspace fields within the seven
types the classifier can produce. -/
lemma reduce_preserves_inv (s : Settings) (a : Action) (t : Settings)
    (hs : SettingsInv s) (ht : reduce s a = some t) : SettingsInv t := by
  have hcopy : SettingsInv s := hs
  obtain ⟨h1, h2, h3, h4, h5, h6, h7⟩ := hcopy
  cases a with
  | Set name value =>
    rcases reduce_set_cases s name value t ht with
      rfl | rfl | rfl | rfl | rfl | rfl | rfl | ⟨n, rfl⟩ | rfl | ⟨w, rfl⟩ |
      ⟨o, rfl⟩ | ⟨f, rfl⟩ | rfl
    · exact ⟨get_airtype_getD_good value, h2, h3, h4, h5, h6, h7⟩
    · exact ⟨h1, goodOption_get_airtype value, h3, h4, h5, h6, h7⟩
    · exact ⟨h1, h2, goodOption_get_airtype value, h4, h5, h6, h7⟩
    · exact ⟨h1, h2, h3, goodOption_get_airtype value, h5, h6, h7⟩
    · exact ⟨h1, h2, h3, h4, goodOption_get_airtype value, h6, h7⟩
    · exact ⟨h1, h2, h3, h4, h5, goodOption_get_airtype value, h7⟩
    · exact ⟨h1, h2, h3, h4, h5, h6, goodOption_get_airtype value⟩
    · exact ⟨h1, h2, h3, h4, h5, h6, h7⟩
    · exact ⟨h1, h2, h3, h4, h5, h6, h7⟩
    · exact ⟨h1, h2, h3, h4, h5, h6, h7⟩
    · exact ⟨h1, h2, h3, h4, h5, h6, h7⟩
    · exact ⟨h1, h2, h3, h4, h5, h6, h7⟩
    · exact ⟨h1, h2, h3, h4, h5, h6, h7⟩
  | SetLoa name checked =>
    simp only [reduce] at ht
    injection ht with ht2
    subst ht2
    cases checked <;> exact ⟨h1, h2, h3, h4, h5, h6, h7⟩
  | SetRat name checked =>
    simp only [reduce] at ht
    injection ht with ht2
    subst ht2
    cases checked <;> exact ⟨h1, h2, h3, h4, h5, h6, h7⟩
  | SetWave name checked =>
    simp only [reduce] at ht
    injection ht with ht2
    subst ht2
    cases checked <;> exact ⟨h1, h2, h3, h4, h5, h6, h7⟩
  | ClearLoa =>
    simp only [reduce] at ht
    injection ht with ht2
    subst ht2
    exact ⟨h1, h2, h3, h4, h5, h6, h7⟩
  | ClearRat =>
    simp only [reduce] at ht
    injection ht with ht2
    subst ht2
    exact ⟨h1, h2, h3, h4, h5, h6, h7⟩
  | ClearWave =>
    simp only [reduce] at ht
    injection ht with ht2
    subst ht2
    exact ⟨h1, h2, h3, h4, h5, h6, h7⟩

/-- Folding the empty action list changes nothing. -/
lemma applyActions_nil (s : Settings) : applyActions s [] = some s := rfl

/-- Folding an action list is one reduction step followed by the
rest. -/
lemma applyActions_cons (s : Settings) (a : Action) (l : List Action) :
    applyActions s (a :: l) = (reduce s a).bind (fun t => applyActions t l) :=
  rfl

/-- A successful fold of any action list preserves the airspace
invariant. -/
lemma applyActions_preserves_inv (l : List Action) :
    ∀ s t : Settings, SettingsInv s → applyActions s l = some t →
      SettingsInv t := by
  induction l with
  | nil =>
    intro s t hs ht
    rw [applyActions_nil] at ht
    obtain rfl : s = t := Option.some.inj ht
    exact hs
  | cons a l ih =>
    intro s t hs ht
    rw [applyActions_cons] at ht
    cases hr : reduce s a with
    | none => rw [hr] at ht; cases ht
    | some u =>
      rw [hr] at ht
      exact ih u t (reduce_preserves_inv s a u hs hr) ht

/-- The default settings satisfy the airspace invariant. -/
lemma defaultSettings_inv : SettingsInv defaultSettings :=
  ⟨Or.inr (Or.inr (Or.inr (Or.inl rfl))), trivial, trivial, trivial,
    trivial, trivial, trivial⟩

/-- Claim C9: in every state reachable from the default settings by a
sequence of actions the reducer completes on, atz is one of the seven
types the classifier can produce and every optional remap field is
unset or one of those seven. -/
theorem reachable_airtype_invariant (l : List Action) (s : Settings)
    (h : applyActions defaultSettings l = some s) : SettingsInv s :=
  applyActions_preserves_inv l defaultSettings s defaultSettings_inv h

/-- Witness for claim C9 after one ils update from the default
settings. -/
theorem reachable_airtype_invariant_witness :
    SettingsInv { defaultSettings with ils := some AirType.ClassD } :=
  reachable_airtype_invariant [Action.Set "ils" "classd"]
    { defaultSettings with ils := some AirType.ClassD } (by decide)

/-- Claim C10: every completed reduction step changes at most one field
of the settings record. -/
theorem reduce_frame_at_most_one_field (s : Settings) (a : Action)
    (t : Settings) (h : reduce s a = some t) : diffCount s t ≤ 1 := by
  cases a with
  | Set name value =>
    rcases reduce_set_cases s name value t h with
      rfl | rfl | rfl | rfl | rfl | rfl | rfl | ⟨n, rfl⟩ | rfl | ⟨w, rfl⟩ |
      ⟨o, rfl⟩ | ⟨f, rfl⟩ | rfl
    all_goals simp [diffCount]
    all_goals split_ifs <;> simp
  | SetLoa name checked =>
    simp only [reduce] at h
    injection h with h2
    subst h2
    cases checked <;> simp [diffCount] <;> (split_ifs <;> simp)
  | SetRat name checked =>
    simp only [reduce] at h
    injection h with h2
    subst h2
    cases checked <;> simp [diffCount] <;> (split_ifs <;> simp)
  | SetWave name checked =>
    simp only [reduce] at h
    injection h with h2
    subst h2
    cases checked <;> simp [diffCount] <;> (split_ifs <;> simp)
  | ClearLoa =>
    simp only [reduce] at h
    injection h with h2
    subst h2
    simp [diffCount]
    split_ifs <;> simp
  | ClearRat =>
    simp only [reduce] at h
    injection h with h2
    subst h2
    simp [diffCount]
    split_ifs <;> simp
  | ClearWave =>
    simp only [reduce] at h
    injection h with h2
    subst h2
    simp [diffCount]
    split_ifs <;> simp

/-- Witness for claim C10 at a radio update from the default
settings. -/
theorem reduce_frame_witness :
    diffCount defaultSettings { defaultSettings with radio := true } ≤ 1 :=
  reduce_frame_at_most_one_field defaultSettings (Action.Set "radio" "yes")
    { defaultSettings with radio := true } (by decide)

end ASelect
